import Mathlib

/-!
Verification of `cura/Settings/ExtruderStack.py` (class `ExtruderStack`).

Shallow embedding notes:
* Python values flowing through `getProperty` are modelled by `PVal`
  (None, bool, int, str), with Python truthiness (`truthy`), Python `str()`
  conversion (`pyStr`) and Python `==` across these types (`pyEq`).
* The layered lookup of the generic container-stack base
  (`super().getProperty`) and of the global stack are external collaborators;
  they are modelled as opaque function fields (`localProp`, `prop`).
* Metadata maps, the global stack's `extruders` dict and the extruder
  manager's registry are modelled as association lists over `String` keys.
* Exceptions become the `Except CuraError` monad.  A redirection cycle would
  make the Python code recurse forever (ending in a `RecursionError`), so the
  recursive `getProperty` takes a fuel argument and returns
  `CuraError.recursionError` on exhaustion.
-/

set_option autoImplicit false

namespace ExtruderStackSpec

/-- A Python value as it appears in property resolution: `None`, a bool,
an int, or a string. -/
inductive PVal where
  | none
  | bool (b : Bool)
  | int (n : Int)
  | str (s : String)
deriving DecidableEq, Repr

/-- Python truthiness of a `PVal` (`if not x:`). -/
def truthy : PVal → Bool
  | PVal.none => false
  | PVal.bool b => b
  | PVal.int n => n != 0
  | PVal.str s => s != ""

/-- Python `str()` conversion of a `PVal`. -/
def pyStr : PVal → String
  | PVal.none => "None"
  | PVal.bool b => if b then "True" else "False"
  | PVal.int n => toString n
  | PVal.str s => s

/-- Python `==` between two `PVal`s: values of different types compare
unequal, except that Python booleans equal the ints 0 and 1. -/
def pyEq : PVal → PVal → Bool
  | PVal.none, PVal.none => true
  | PVal.bool a, PVal.bool b => a == b
  | PVal.int a, PVal.int b => a == b
  | PVal.str a, PVal.str b => a == b
  | PVal.bool a, PVal.int b => (if a then (1 : Int) else 0) == b
  | PVal.int a, PVal.bool b => a == (if b then (1 : Int) else 0)
  | _, _ => false

/-- First value stored under a key in an association list
(a Python dict lookup / `getMetaDataEntry` without default). -/
def getAssoc {α : Type} : List (String × α) → String → Option α
  | [], _ => Option.none
  | (k, v) :: rest, q => if k == q then some v else getAssoc rest q

/-- Store a value under a key in an association list, overwriting an
existing entry (a Python dict update). -/
def setAssoc {α : Type} : List (String × α) → String → α → List (String × α)
  | [], q, v => [(q, v)]
  | (k, w) :: rest, q, v =>
      if k == q then (q, v) :: rest else (k, w) :: setAssoc rest q v

/-- Errors raised by the extruder stack: `Exceptions.NoGlobalStackError`
(carrying the extruder's id), and the `RecursionError` Python would hit on a
cyclic redirection chain. -/
inductive CuraError where
  | noGlobalStack (id : String)
  | recursionError
deriving DecidableEq, Repr

/-- The extruder-local portion of an `ExtruderStack`: its id, the layered
lookup of its own containers (`super().getProperty`, external collaborator)
and its metadata map (`type`, `machine`, `position`, ...). -/
structure ExtruderData where
  id : String
  localProp : String → String → PVal
  metaData : List (String × String)

/-- The global stack (parent), an external collaborator: its id, its own
property resolution (`GlobalStack.getProperty`), its machine definition
(result of its `_getMachineDefinition` accessor, modelled from the spec:
the parent's machine-definition accessor is code of this repository not
under src/), and its `extruders` mapping from position string to registered
extruder. -/
structure GlobalStack where
  id : String
  prop : String → String → PVal
  machineDefinition : String
  extruders : List (String × ExtruderData)

/-- The condition of the redirection `if` in `ExtruderStack.getProperty`:
`(limit_to_extruder is not None and limit_to_extruder != "-1") and
self.getMetaDataEntry("position") != str(limit_to_extruder)`. -/
def redirCond (e : ExtruderData) (lim : PVal) : Bool :=
  (decide (lim ≠ PVal.none) && !(pyEq lim (PVal.str "-1"))) &&
    decide (getAssoc e.metaData "position" ≠ some (pyStr lim))

/-- `ExtruderStack.getProperty(key, property_name)`, with the next stack
passed explicitly (`self._next_stack`) and fuel bounding the sibling
recursion.  A sibling taken from the parent's `extruders` mapping was
registered there by `setNextStack`, so its own next stack is that same
parent. -/
def getPropertyAux : Nat → Option GlobalStack → ExtruderData → String → String →
    Except CuraError PVal
  | _, Option.none, e, _, _ => Except.error (CuraError.noGlobalStack e.id)
  | fuel, some g, e, key, pname =>
      if !(truthy (e.localProp key "settable_per_extruder")) then
        Except.ok (g.prop key pname)
      else
        let lim := e.localProp key "limit_to_extruder"
        if redirCond e lim then
          match getAssoc g.extruders (pyStr lim) with
          | some sib =>
              match fuel with
              | 0 => Except.error CuraError.recursionError
              | fuel' + 1 =>
                  match getPropertyAux fuel' (some g) sib key pname with
                  | Except.error err => Except.error err
                  | Except.ok v =>
                      if v ≠ PVal.none then Except.ok v
                      else Except.ok (e.localProp key pname)
          | Option.none => Except.ok (e.localProp key pname)
        else
          Except.ok (e.localProp key pname)

/-- The mutable state touched by linking: the extruder's own data, its
`_next_stack` reference, and the extruder manager's extruder-to-machine
registry (`ExtruderManager.registerExtruder`, modelled from the spec:
the manager is code of this repository not under src/; it tracks at most
one machine per extruder, re-linking re-registers). -/
structure ExtruderStackState where
  ext : ExtruderData
  nextStack : Option GlobalStack
  manager : List (String × String)

/-- `getProperty` on a stack state. -/
def getProperty (fuel : Nat) (w : ExtruderStackState) (key pname : String) :
    Except CuraError PVal :=
  getPropertyAux fuel w.nextStack w.ext key pname

/-- `ExtruderStack.getNextStack()`. -/
def getNextStack (w : ExtruderStackState) : Option GlobalStack :=
  w.nextStack

/-- Modelled from the spec: `GlobalStack.addExtruder` is code of this
repository not under src/.  The spec says the parent registers the sub-unit
in its addressable collection, a mapping from position string to sub-unit;
an extruder without a position metadata entry cannot be addressed and the
mapping is left unchanged. -/
def addExtruder (g : GlobalStack) (e : ExtruderData) : GlobalStack :=
  match getAssoc e.metaData "position" with
  | some pos => { g with extruders := setAssoc g.extruders pos e }
  | Option.none => g

/-- Modelled from the spec: `ExtruderManager.registerExtruder` is code of
this repository not under src/.  The spec says the manager records the
(sub-unit, parent-identifier) pair and tracks at most one parent per
sub-unit, so registration overwrites the previous entry. -/
def registerExtruder (mgr : List (String × String)) (extId machineId : String) :
    List (String × String) :=
  setAssoc mgr extId machineId

/-- `ExtruderStack.setNextStack(stack)`: the four effects in source order.
`super().setNextStack` (external) stores the reference;
`stack.addExtruder(self)` mutates the very object the reference aliases, so
the stored parent reflects the registration; `self.addMetaDataEntry` writes
the `machine` metadata (per the spec the base metadata write sets the
entry); finally the extruder manager registers the pair. -/
def setNextStack (stack : GlobalStack) (w : ExtruderStackState) :
    ExtruderStackState :=
  let w1 : ExtruderStackState := { w with nextStack := some stack }
  let stack2 := addExtruder stack w1.ext
  let w2 : ExtruderStackState := { w1 with nextStack := some stack2 }
  let w3 : ExtruderStackState :=
    { w2 with ext := { w2.ext with metaData := setAssoc w2.ext.metaData "machine" stack.id } }
  { w3 with manager := registerExtruder w3.manager w3.ext.id stack.id }

/-- `ContainerRegistry.findContainerStacks(id=i)` (external collaborator):
all registered stacks whose id equals `i`, in registry order. -/
def findContainerStacks (registry : List GlobalStack) (i : String) :
    List GlobalStack :=
  registry.filter (fun g => g.id == i)

/-- `ExtruderStack.deserialize(contents)`: run the base deserialization
(external, passed as `base`), then look up the `machine` metadata entry
(default `""`) in the registry and link to the first match when one
exists. -/
def deserialize (base : String → ExtruderData → ExtruderData)
    (registry : List GlobalStack) (contents : String)
    (w : ExtruderStackState) : ExtruderStackState :=
  let w1 : ExtruderStackState := { w with ext := base contents w.ext }
  match findContainerStacks registry ((getAssoc w1.ext.metaData "machine").getD "") with
  | [] => w1
  | s :: _ => setNextStack s w1

/-- `ExtruderStack._getMachineDefinition()`: raise if no next stack, else
delegate to the parent's machine-definition accessor. -/
def getMachineDefinition (w : ExtruderStackState) : Except CuraError String :=
  match w.nextStack with
  | Option.none => Except.error (CuraError.noGlobalStack w.ext.id)
  | some g => Except.ok g.machineDefinition

/-! Concrete fixtures, following the end-to-end scenario of the spec:
extruders E1 (position "0") and E2 (position "1") on machine M1, with a
per-extruder key `wall_thickness`; E1 redirects it to position "1".
E3 redirects `brim_width` to a position with no registered extruder and
E4 carries the integer `-1` (not the string) as `limit_to_extruder`. -/

/-- E1's layered lookup: `wall_thickness` is settable per extruder, limited
to extruder "1", locally 8. -/
def extruderAProps : String → String → PVal := fun key prop =>
  if key = "wall_thickness" ∧ prop = "settable_per_extruder" then PVal.bool true
  else if key = "wall_thickness" ∧ prop = "limit_to_extruder" then PVal.str "1"
  else if key = "wall_thickness" ∧ prop = "value" then PVal.int 8
  else PVal.none

/-- Extruder E1 at position "0". -/
def extA : ExtruderData :=
  { id := "E1", localProp := extruderAProps, metaData := [("position", "0")] }

/-- E2's layered lookup: `wall_thickness` settable per extruder, no
redirection, locally 12. -/
def extruderBProps : String → String → PVal := fun key prop =>
  if key = "wall_thickness" ∧ prop = "settable_per_extruder" then PVal.bool true
  else if key = "wall_thickness" ∧ prop = "value" then PVal.int 12
  else PVal.none

/-- Extruder E2 at position "1". -/
def extB : ExtruderData :=
  { id := "E2", localProp := extruderBProps, metaData := [("position", "1")] }

/-- E3's layered lookup: `brim_width` settable per extruder, limited to
position "9" (no extruder registered there), locally 5. -/
def extruderCProps : String → String → PVal := fun key prop =>
  if key = "brim_width" ∧ prop = "settable_per_extruder" then PVal.bool true
  else if key = "brim_width" ∧ prop = "limit_to_extruder" then PVal.str "9"
  else if key = "brim_width" ∧ prop = "value" then PVal.int 5
  else PVal.none

/-- Extruder E3 at position "2". -/
def extC : ExtruderData :=
  { id := "E3", localProp := extruderCProps, metaData := [("position", "2")] }

/-- E4's layered lookup: `speed` settable per extruder, with the integer
`-1` (not the string) as `limit_to_extruder`, locally 3. -/
def extruderDProps : String → String → PVal := fun key prop =>
  if key = "speed" ∧ prop = "settable_per_extruder" then PVal.bool true
  else if key = "speed" ∧ prop = "limit_to_extruder" then PVal.int (-1)
  else if key = "speed" ∧ prop = "value" then PVal.int 3
  else PVal.none

/-- Extruder E4 at position "0". -/
def extD : ExtruderData :=
  { id := "E4", localProp := extruderDProps, metaData := [("position", "0")] }

/-- The global stack M1 with extruders E1, E2, E3 registered. -/
def gM1 : GlobalStack :=
  { id := "M1", prop := fun _ _ => PVal.int 99,
    machineDefinition := "fdmprinter",
    extruders := [("0", extA), ("1", extB), ("2", extC)] }

/-- An extruder stack for E1 that is not yet linked to any machine. -/
def wUnlinked : ExtruderStackState :=
  { ext := extA, nextStack := Option.none, manager := [] }

/-- An extruder stack for E1 linked to M1. -/
def wLinked : ExtruderStackState :=
  { ext := extA, nextStack := some gM1, manager := [] }

/-- Base deserialization used in the round-trip fixture: parsing the
persisted text yields metadata `machine = "M1"`, `position = "0"`. -/
def baseParseM1 : String → ExtruderData → ExtruderData := fun _ e =>
  { e with metaData := [("machine", "M1"), ("position", "0")] }

/-! ### Helper lemmas -/

theorem getAssoc_setAssoc_self {α : Type} (l : List (String × α)) (k : String) (v : α) :
    getAssoc (setAssoc l k v) k = some v := by
  induction l with
  | nil => simp [setAssoc, getAssoc]
  | cons hd tl ih =>
      obtain ⟨a, b⟩ := hd
      by_cases h : (a == k) = true
      · simp [setAssoc, h, getAssoc]
      · simp [setAssoc, h, getAssoc, ih]

theorem addExtruder_id (g : GlobalStack) (e : ExtruderData) :
    (addExtruder g e).id = g.id := by
  unfold addExtruder
  split <;> rfl

theorem setNextStack_machine (w : ExtruderStackState) (p : GlobalStack) :
    getAssoc (setNextStack p w).ext.metaData "machine" = some p.id := by
  simp [setNextStack, getAssoc_setAssoc_self]

/-! ### Claim theorems -/

/-- C1: on a linked extruder, if the extruder's own layered data does not
report the key as truthy `settable_per_extruder`, `getProperty` returns
exactly the parent stack's `getProperty` result, with no local
resolution. -/
theorem getProperty_not_settable_delegates_to_parent
    (fuel : Nat) (g : GlobalStack) (e : ExtruderData) (key pname : String)
    (h : truthy (e.localProp key "settable_per_extruder") = false) :
    getPropertyAux fuel (some g) e key pname = Except.ok (g.prop key pname) := by
  simp [getPropertyAux, h]

theorem getProperty_not_settable_delegates_to_parent_witness :
    truthy (extA.localProp "other_key" "settable_per_extruder") = false ∧
    getPropertyAux 1 (some gM1) extA "other_key" "value" =
      Except.ok (gM1.prop "other_key" "value") :=
  ⟨by decide,
   getProperty_not_settable_delegates_to_parent 1 gM1 extA "other_key" "value" (by decide)⟩

/-- C5: `getProperty` on an extruder with no next stack always raises
`NoGlobalStackError` carrying the extruder's id, whatever the key, the
property name and the extruder's own data — the check precedes every other
step of the resolution. -/
theorem getProperty_unlinked_raises
    (fuel : Nat) (e : ExtruderData) (key pname : String) :
    getPropertyAux fuel Option.none e key pname =
      Except.error (CuraError.noGlobalStack e.id) := by
  simp [getPropertyAux]

/-- C3: on a linked extruder, if the key is settable per extruder and its
`limit_to_extruder` is absent (None), is the sentinel string "-1", or
equals the extruder's own position metadata, `getProperty` returns the
extruder's own local layered value. -/
theorem getProperty_no_redirect_returns_local
    (fuel : Nat) (g : GlobalStack) (e : ExtruderData) (key pname : String)
    (hset : truthy (e.localProp key "settable_per_extruder") = true)
    (hdis : e.localProp key "limit_to_extruder" = PVal.none ∨
            e.localProp key "limit_to_extruder" = PVal.str "-1" ∨
            getAssoc e.metaData "position" =
              some (pyStr (e.localProp key "limit_to_extruder"))) :
    getPropertyAux fuel (some g) e key pname =
      Except.ok (e.localProp key pname) := by
  have hrc : redirCond e (e.localProp key "limit_to_extruder") = false := by
    rcases hdis with h | h | h
    · simp [redirCond, h]
    · simp [redirCond, h, pyEq]
    · simp [redirCond, h]
  simp [getPropertyAux, hset, hrc]

theorem getProperty_no_redirect_returns_local_witness :
    truthy (extB.localProp "wall_thickness" "settable_per_extruder") = true ∧
    extB.localProp "wall_thickness" "limit_to_extruder" = PVal.none ∧
    getPropertyAux 1 (some gM1) extB "wall_thickness" "value" =
      Except.ok (extB.localProp "wall_thickness" "value") :=
  ⟨by decide, by decide,
   getProperty_no_redirect_returns_local 1 gM1 extB "wall_thickness" "value"
     (by decide) (Or.inl (by decide))⟩

/-- C2: on a linked extruder whose data marks the key settable per extruder
with `limit_to_extruder` L that is not None, not the string "-1" and not
the extruder's own position, if the parent's extruders mapping holds a
sibling under position `str(L)` and the sibling's `getProperty` returns a
non-None value, then `getProperty` returns the sibling's value, over the
extruder's own local value. -/
theorem getProperty_redirect_returns_sibling_value
    (fuel : Nat) (g : GlobalStack) (e sib : ExtruderData) (key pname : String)
    (L v : PVal)
    (hset : truthy (e.localProp key "settable_per_extruder") = true)
    (hlim : e.localProp key "limit_to_extruder" = L)
    (hn : L ≠ PVal.none)
    (hs : pyEq L (PVal.str "-1") = false)
    (hpos : getAssoc e.metaData "position" ≠ some (pyStr L))
    (hsib : getAssoc g.extruders (pyStr L) = some sib)
    (hres : getPropertyAux fuel (some g) sib key pname = Except.ok v)
    (hv : v ≠ PVal.none) :
    getPropertyAux (fuel + 1) (some g) e key pname = Except.ok v := by
  have hrc : redirCond e L = true := by
    simp only [redirCond, Bool.and_eq_true, decide_eq_true_eq, Bool.not_eq_true']
    exact ⟨⟨hn, hs⟩, hpos⟩
  simp [getPropertyAux, hset, hlim, hrc, hsib, hres, hv]

theorem getProperty_redirect_returns_sibling_value_witness :
    getPropertyAux 2 (some gM1) extA "wall_thickness" "value" =
      Except.ok (PVal.int 12) := by
  exact getProperty_redirect_returns_sibling_value 1 gM1 extA extB
    "wall_thickness" "value" (PVal.str "1") (PVal.int 12)
    (by decide) (by decide) (by decide) (by decide) (by decide) rfl rfl (by decide)

/-- C4: on a linked extruder whose redirection condition holds for the key
(settable per extruder, marker L present, L not "-1", L not the own
position), if the parent's extruders mapping has no entry under `str(L)`,
or the sibling's `getProperty` returns None, `getProperty` raises nothing
and returns the extruder's own local layered value. -/
theorem getProperty_redirect_fallback_returns_local
    (fuel : Nat) (g : GlobalStack) (e : ExtruderData) (key pname : String)
    (L : PVal)
    (hset : truthy (e.localProp key "settable_per_extruder") = true)
    (hlim : e.localProp key "limit_to_extruder" = L)
    (hn : L ≠ PVal.none)
    (hs : pyEq L (PVal.str "-1") = false)
    (hpos : getAssoc e.metaData "position" ≠ some (pyStr L))
    (hfall : getAssoc g.extruders (pyStr L) = Option.none ∨
             ∃ sib, getAssoc g.extruders (pyStr L) = some sib ∧
               getPropertyAux fuel (some g) sib key pname = Except.ok PVal.none) :
    getPropertyAux (fuel + 1) (some g) e key pname =
      Except.ok (e.localProp key pname) := by
  have hrc : redirCond e L = true := by
    simp only [redirCond, Bool.and_eq_true, decide_eq_true_eq, Bool.not_eq_true']
    exact ⟨⟨hn, hs⟩, hpos⟩
  rcases hfall with h | ⟨sib, hsib, hres⟩
  · simp [getPropertyAux, hset, hlim, hrc, h]
  · simp [getPropertyAux, hset, hlim, hrc, hsib, hres]

theorem getProperty_redirect_fallback_returns_local_witness :
    getAssoc gM1.extruders "9" = Option.none ∧
    getPropertyAux 2 (some gM1) extC "brim_width" "value" =
      Except.ok (extC.localProp "brim_width" "value") := by
  refine ⟨rfl, ?_⟩
  exact getProperty_redirect_fallback_returns_local 1 gM1 extC "brim_width" "value"
    (PVal.str "9") (by decide) (by decide) (by decide) (by decide) (by decide)
    (Or.inl rfl)

/-- C6 (counterexample): an unlinked extruder whose own data marks
`wall_thickness` settable per extruder and holds a non-None local value
still fails with `NoGlobalStackError` instead of returning that local
value — the claim that resolution succeeds without a parent when the key
is fully satisfied locally is false on the code. -/
theorem getProperty_unlinked_local_counterexample :
    truthy (extB.localProp "wall_thickness" "settable_per_extruder") = true ∧
    extB.localProp "wall_thickness" "value" = PVal.int 12 ∧
    getPropertyAux 1 Option.none extB "wall_thickness" "value" =
      Except.error (CuraError.noGlobalStack "E2") :=
  ⟨by decide, by decide, rfl⟩

/-- C6 (amended): even when the key is marked settable per extruder in the
extruder's own data and the extruder holds a non-None local value for it,
`getProperty` on an unlinked extruder fails with `NoGlobalStackError` and
never returns the local value. -/
theorem getProperty_unlinked_fails_even_with_local
    (fuel : Nat) (e : ExtruderData) (key pname : String)
    (_hset : truthy (e.localProp key "settable_per_extruder") = true)
    (_hval : e.localProp key pname ≠ PVal.none) :
    getPropertyAux fuel Option.none e key pname =
      Except.error (CuraError.noGlobalStack e.id) := by
  simp [getPropertyAux]

theorem getProperty_unlinked_fails_even_with_local_witness :
    getPropertyAux 1 Option.none extB "wall_thickness" "value" =
      Except.error (CuraError.noGlobalStack extB.id) :=
  getProperty_unlinked_fails_even_with_local 1 extB "wall_thickness" "value"
    (by decide) (by decide)

/-- C10: the sentinel test compares the raw `limit_to_extruder` value with
the string "-1" before `str()` conversion, so the integer -1 does not
suppress redirection: the redirection condition holds, redirection is
attempted toward position `str(-1) = "-1"`, and when the parent has no
extruder registered under "-1" the result is still the extruder's own
local value. -/
theorem sentinel_check_int_minus_one
    (fuel : Nat) (g : GlobalStack) (e : ExtruderData) (key pname : String)
    (hset : truthy (e.localProp key "settable_per_extruder") = true)
    (hlim : e.localProp key "limit_to_extruder" = PVal.int (-1))
    (hpos : getAssoc e.metaData "position" ≠ some "-1")
    (hsib : getAssoc g.extruders "-1" = Option.none) :
    pyStr (PVal.int (-1)) = "-1" ∧
    redirCond e (PVal.int (-1)) = true ∧
    getPropertyAux (fuel + 1) (some g) e key pname =
      Except.ok (e.localProp key pname) := by
  have hps : pyStr (PVal.int (-1)) = "-1" := rfl
  have hrc : redirCond e (PVal.int (-1)) = true := by
    simp only [redirCond, Bool.and_eq_true, decide_eq_true_eq, Bool.not_eq_true', hps]
    exact ⟨⟨by decide, by decide⟩, hpos⟩
  refine ⟨hps, hrc, ?_⟩
  simp [getPropertyAux, hset, hlim, hrc, hps, hsib]

theorem sentinel_check_int_minus_one_witness :
    getPropertyAux 2 (some gM1) extD "speed" "value" =
      Except.ok (extD.localProp "speed" "value") := by
  exact (sentinel_check_int_minus_one 1 gM1 extD "speed" "value"
    (by decide) (by decide) (by decide) rfl).2.2

/-- C7: `setNextStack(p)` performs its four effects in order — the stored
next stack is p (the very object then mutated by registration, same id),
the extruder is added to p's extruders mapping under its position, the
`machine` metadata entry becomes p's id, and the extruder manager maps the
extruder's id to p's id — and after any nonempty sequence of `setNextStack`
calls the `machine` metadata entry equals the id of the last parent
linked. -/
theorem setNextStack_effects
    (w : ExtruderStackState) (p : GlobalStack) (pos : String)
    (hpos : getAssoc w.ext.metaData "position" = some pos) :
    (setNextStack p w).nextStack = some (addExtruder p w.ext) ∧
    (addExtruder p w.ext).id = p.id ∧
    getAssoc (addExtruder p w.ext).extruders pos = some w.ext ∧
    getAssoc (setNextStack p w).ext.metaData "machine" = some p.id ∧
    getAssoc (setNextStack p w).manager w.ext.id = some p.id ∧
    (∀ (w0 : ExtruderStackState) (qs : List GlobalStack) (q : GlobalStack),
      getAssoc ((qs ++ [q]).foldl (fun s r => setNextStack r s) w0).ext.metaData
        "machine" = some q.id) := by
  refine ⟨rfl, addExtruder_id p w.ext, ?_, setNextStack_machine w p,
    ?_, ?_⟩
  · simp [addExtruder, hpos, getAssoc_setAssoc_self]
  · simp [setNextStack, registerExtruder, getAssoc_setAssoc_self]
  · intro w0 qs q
    rw [List.foldl_append, List.foldl_cons, List.foldl_nil]
    exact setNextStack_machine _ q

theorem setNextStack_effects_witness :
    getAssoc (setNextStack gM1 wUnlinked).ext.metaData "machine" = some "M1" ∧
    getAssoc (setNextStack gM1 wUnlinked).manager "E1" = some "M1" := by
  have h := setNextStack_effects wUnlinked gM1 "0" (by decide)
  exact ⟨h.2.2.2.1, h.2.2.2.2.1⟩

/-- C8: `deserialize` first applies the base deserialization, then filters
the registry by the `machine` metadata entry (default ""): with no match it
returns the state unchanged apart from the base step (no error, unlinked
stays unlinked); with a first match g it links to g via `setNextStack`, so
`getNextStack` afterwards returns the registered stack, whose id is g's id,
itself equal to the `machine` metadata entry. -/
theorem deserialize_relinks
    (base : String → ExtruderData → ExtruderData)
    (registry : List GlobalStack) (contents : String)
    (w : ExtruderStackState) :
    ((findContainerStacks registry
        ((getAssoc (base contents w.ext).metaData "machine").getD "") = [] →
      deserialize base registry contents w = { w with ext := base contents w.ext }) ∧
    (∀ g rest,
      findContainerStacks registry
        ((getAssoc (base contents w.ext).metaData "machine").getD "") = g :: rest →
      g.id = (getAssoc (base contents w.ext).metaData "machine").getD "" ∧
      deserialize base registry contents w =
        setNextStack g { w with ext := base contents w.ext } ∧
      getNextStack (deserialize base registry contents w) =
        some (addExtruder g (base contents w.ext)) ∧
      (addExtruder g (base contents w.ext)).id = g.id)) := by
  constructor
  · intro h
    simp [deserialize, h]
  · intro g rest h
    have hg : g ∈ findContainerStacks registry
        ((getAssoc (base contents w.ext).metaData "machine").getD "") := by
      rw [h]; exact List.mem_cons_self g rest
    have hid : g.id = (getAssoc (base contents w.ext).metaData "machine").getD "" := by
      have := (List.mem_filter.mp hg).2
      exact eq_of_beq this
    refine ⟨hid, ?_, ?_, addExtruder_id g (base contents w.ext)⟩
    · simp [deserialize, h]
    · simp [deserialize, h, setNextStack, getNextStack]

theorem deserialize_relinks_witness :
    getNextStack (deserialize baseParseM1 [gM1] "persisted" wUnlinked) =
      some (addExtruder gM1 (baseParseM1 "persisted" wUnlinked.ext)) ∧
    (addExtruder gM1 (baseParseM1 "persisted" wUnlinked.ext)).id = "M1" := by
  have h := (deserialize_relinks baseParseM1 [gM1] "persisted" wUnlinked).2 gM1 [] rfl
  exact ⟨h.2.2.1, h.2.2.2⟩

/-- C9: `_getMachineDefinition` raises `NoGlobalStackError` (with the
extruder's id) exactly when no next stack is set, and otherwise returns the
parent's machine definition; the embedding is a pure function of the state,
so the state is unchanged in both cases. -/
theorem getMachineDefinition_delegates (w : ExtruderStackState) :
    (getMachineDefinition w =
        Except.error (CuraError.noGlobalStack w.ext.id) ↔
      w.nextStack = Option.none) ∧
    (∀ g, w.nextStack = some g →
      getMachineDefinition w = Except.ok g.machineDefinition) := by
  cases hw : w.nextStack with
  | none => simp [getMachineDefinition, hw]
  | some g => simp [getMachineDefinition, hw]

theorem getMachineDefinition_delegates_witness :
    getMachineDefinition wLinked = Except.ok "fdmprinter" :=
  (getMachineDefinition_delegates wLinked).2 gM1 rfl

end ExtruderStackSpec
